import Mathlib

/-!
Verification of the data-migration and backup/restore subsystem of the
yurichatbot_localserver repository.

The first half embeds `scripts/migrate-mongo-to-sqlite.ts`: the MongoDB
source collections, the SQLite target rows created through Prisma, the
in-memory `idMapping` (a JS `Map<string, string>`), the per-collection
importing passes, the relationship pass and `verifyMigration`.  Fresh target
identifiers (`uuidv4()` in the source) are embedded as a counter carried in
the migrator state, so that each call yields an identifier distinct from
every previously issued one.  JS `Map.set` overwrites silently and
`Map.get` returns the most recent binding; this is embedded as an
association list consed at the front and read by first match.

The second half embeds `scripts/backup-restore.sh`: the live SQLite file,
the backup directories, `backup_database`, `restore_database`,
`restore_files`, the full-restore command path under `set -e`, and
`cleanup_backups` with its `ls -t | tail -n +(MAX+1)` retention rule.
A SQLite file is embedded as opaque content together with the outcome of
`PRAGMA integrity_check` on it; `cp` copies the value, `sqlite3 .backup`
produces a point-in-time copy of the live file.
-/

/-- A record of the Mongo `textbooks` collection (`MongoTextbook` in
migrate-mongo-to-sqlite.ts).  `mongoId` is `_id.toString()`; dates are
embedded as numeric timestamps. -/
structure MongoTextbook where
  mongoId : String
  title : String
  publisher : String
  subject : String
  level : String
  grade : String
  createdAt : Nat
  updatedAt : Nat
deriving DecidableEq

/-- A record of the Mongo `passagesets` collection (`MongoPassageSet`):
`textbooks` is the array of referenced textbook ObjectIds. -/
structure MongoPassageSet where
  mongoId : String
  title : String
  passage : String
  passageComment : String
  qrCode : String
  textbooks : List String
  createdAt : Nat
  updatedAt : Nat
deriving DecidableEq

/-- A record of the Mongo `questions` collection (`MongoQuestion`):
`setId` references a passage set. -/
structure MongoQuestion where
  mongoId : String
  setId : String
  questionNumber : Nat
  questionText : String
  options : List String
  correctAnswer : String
  explanation : String
  createdAt : Nat
  updatedAt : Nat
deriving DecidableEq

/-- A record of the Mongo `systemprompts` collection (`MongoSystemPrompt`). -/
structure MongoSystemPrompt where
  mongoId : String
  key : String
  name : String
  description : String
  content : String
  isActive : Bool
  version : Nat
  createdAt : Nat
  updatedAt : Nat
deriving DecidableEq

/-- A record of the Mongo prompt-version history collection (read under the
name `systemprompversions` in the source, `MongoSystemPromptVersion`). -/
structure MongoSystemPromptVersion where
  mongoId : String
  promptKey : String
  content : String
  version : Nat
  description : String
  createdBy : String
  createdAt : Nat
deriving DecidableEq

/-- The MongoDB source snapshot: one finite collection per entity kind,
with the field names of the collections the migration script reads
(including the `systemprompversions` spelling used at line 317). -/
structure MongoDB where
  textbooks : List MongoTextbook
  passagesets : List MongoPassageSet
  questions : List MongoQuestion
  systemprompts : List MongoSystemPrompt
  systemprompversions : List MongoSystemPromptVersion
deriving DecidableEq

/-- Target identifiers (`uuidv4()` in the source) are embedded as the
counter values of a fresh-identifier supply. -/
abbrev TargetId := Nat

/-- A row of the target `textbook` table as written by
`prisma.textbook.create`. -/
structure SqliteTextbook where
  id : TargetId
  title : String
  publisher : String
  subject : String
  level : String
  grade : String
  createdAt : Nat
  updatedAt : Nat
deriving DecidableEq

/-- A row of the target `passageSet` table as written by
`prisma.passageSet.create` (the `textbooks` array is dropped here and
re-established by the relationship pass). -/
structure SqlitePassageSet where
  id : TargetId
  title : String
  passage : String
  passageComment : String
  qrCode : String
  createdAt : Nat
  updatedAt : Nat
deriving DecidableEq

/-- A row of the target `question` table: `setId` is the remapped passage
set identifier and `optionsJson` the serialized options array. -/
structure SqliteQuestion where
  id : TargetId
  setId : TargetId
  questionNumber : Nat
  questionText : String
  optionsJson : String
  correctAnswer : String
  explanation : String
  createdAt : Nat
  updatedAt : Nat
deriving DecidableEq

/-- A row of the target `systemPrompt` table. -/
structure SqliteSystemPrompt where
  id : TargetId
  key : String
  name : String
  description : String
  content : String
  isActive : Bool
  version : Nat
  createdAt : Nat
  updatedAt : Nat
deriving DecidableEq

/-- A row of the target `systemPromptVersion` table. -/
structure SqliteSystemPromptVersion where
  id : TargetId
  promptKey : String
  content : String
  version : Nat
  description : String
  createdBy : String
  createdAt : Nat
deriving DecidableEq

/-- A row of the `passageSetTextbook` junction table. -/
structure PassageSetTextbook where
  textbookId : TargetId
  passageSetId : TargetId
deriving DecidableEq

/-- The SQLite target store: one table per entity kind plus the junction
table. -/
structure SqliteDB where
  textbooks : List SqliteTextbook
  passageSets : List SqlitePassageSet
  questions : List SqliteQuestion
  systemPrompts : List SqliteSystemPrompt
  systemPromptVersions : List SqliteSystemPromptVersion
  passageSetTextbooks : List PassageSetTextbook
deriving DecidableEq

/-- The empty target store (a freshly created schema with no rows). -/
def emptySqliteDB : SqliteDB := ⟨[], [], [], [], [], []⟩

/-- `JSON.stringify` applied to a string array
(`optionsJson: JSON.stringify(question.options)` at line 266).  The
escaping of special characters inside the options is not modelled; no
claim depends on the encoding's details, only on the field being a single
serialized text value. -/
def jsonStringify (xs : List String) : String :=
  "[" ++ String.intercalate "," (xs.map (fun s => "\"" ++ s ++ "\"")) ++ "]"

/-- Read a JS `Map<string, string>` (`idMapping.get`): the most recent
`set` for a key wins, so the association list is read by first match from
the front. -/
def mapGet {α : Type} (m : List (String × α)) (k : String) : Option α :=
  match m with
  | [] => none
  | (k', v) :: rest => if k' = k then some v else mapGet rest k

/-- The migrator's in-memory state: the `idMapping` map, the target store
being written, the fresh-identifier counter, and the emitted
`console.warn` / `console.log` lines. -/
structure MigratorState where
  idMapping : List (String × TargetId)
  db : SqliteDB
  nextId : TargetId
  warnings : List String
  logs : List String
deriving DecidableEq

/-- The state the `MongoToSQLiteMigrator` constructor produces: a fresh
empty `idMapping`, counter at zero, and whatever rows the target store
already holds. -/
def initialState (init : SqliteDB) : MigratorState :=
  ⟨[], init, 0, [], []⟩

/-- One iteration of the `migrateTextbooks` loop (lines 186-207): draw a
fresh identifier, record the mapping with `idMapping.set`, and insert the
translated row. -/
def migrateTextbook1 (s : MigratorState) (t : MongoTextbook) : MigratorState :=
  let newId := s.nextId
  { s with
    nextId := newId + 1
    idMapping := (t.mongoId, newId) :: s.idMapping
    db := { s.db with textbooks := s.db.textbooks ++
      [⟨newId, t.title, t.publisher, t.subject, t.level, t.grade, t.createdAt, t.updatedAt⟩] } }

/-- `migrateTextbooks` (lines 179-210). -/
def migrateTextbooks (src : MongoDB) (s : MigratorState) : MigratorState :=
  src.textbooks.foldl migrateTextbook1 s

/-- One iteration of the `migratePassageSets` loop (lines 219-239). -/
def migratePassageSet1 (s : MigratorState) (p : MongoPassageSet) : MigratorState :=
  let newId := s.nextId
  { s with
    nextId := newId + 1
    idMapping := (p.mongoId, newId) :: s.idMapping
    db := { s.db with passageSets := s.db.passageSets ++
      [⟨newId, p.title, p.passage, p.passageComment, p.qrCode, p.createdAt, p.updatedAt⟩] } }

/-- `migratePassageSets` (lines 212-242). -/
def migratePassageSets (src : MongoDB) (s : MigratorState) : MigratorState :=
  src.passagesets.foldl migratePassageSet1 s

/-- One iteration of the `migrateQuestions` loop (lines 251-278): a fresh
identifier is drawn first; if `idMapping.get(question.setId)` misses, the
orphan record is skipped with a warning (`continue`), otherwise the row is
inserted with the remapped `setId`. -/
def migrateQuestion1 (s : MigratorState) (q : MongoQuestion) : MigratorState :=
  let newId := s.nextId
  let s1 := { s with nextId := newId + 1 }
  match mapGet s1.idMapping q.setId with
  | none =>
      { s1 with warnings := s1.warnings ++ ["⚠️ 지문세트 ID를 찾을 수 없음: " ++ q.setId] }
  | some passageSetId =>
      { s1 with db := { s1.db with questions := s1.db.questions ++
        [⟨newId, passageSetId, q.questionNumber, q.questionText,
          jsonStringify q.options, q.correctAnswer, q.explanation,
          q.createdAt, q.updatedAt⟩] } }

/-- `migrateQuestions` (lines 244-281). -/
def migrateQuestions (src : MongoDB) (s : MigratorState) : MigratorState :=
  src.questions.foldl migrateQuestion1 s

/-- One iteration of the `migrateSystemPrompts` loop (lines 290-308): a
fresh identifier is drawn but, the kind having no cross-references, it is
not recorded in `idMapping`. -/
def migrateSystemPrompt1 (s : MigratorState) (p : MongoSystemPrompt) : MigratorState :=
  let newId := s.nextId
  { s with
    nextId := newId + 1
    db := { s.db with systemPrompts := s.db.systemPrompts ++
      [⟨newId, p.key, p.name, p.description, p.content, p.isActive,
        p.version, p.createdAt, p.updatedAt⟩] } }

/-- `migrateSystemPrompts` (lines 283-311). -/
def migrateSystemPrompts (src : MongoDB) (s : MigratorState) : MigratorState :=
  src.systemprompts.foldl migrateSystemPrompt1 s

/-- One iteration of the `migrateSystemPromptVersions` loop
(lines 320-336). -/
def migrateSystemPromptVersion1 (s : MigratorState) (v : MongoSystemPromptVersion) :
    MigratorState :=
  let newId := s.nextId
  { s with
    nextId := newId + 1
    db := { s.db with systemPromptVersions := s.db.systemPromptVersions ++
      [⟨newId, v.promptKey, v.content, v.version, v.description,
        v.createdBy, v.createdAt⟩] } }

/-- `migrateSystemPromptVersions` (lines 313-339). -/
def migrateSystemPromptVersions (src : MongoDB) (s : MigratorState) : MigratorState :=
  src.systemprompversions.foldl migrateSystemPromptVersion1 s

/-- Modelled from the spec: the Prisma schema declaring the
`passageSetTextbook` junction table is not under `src/`; per the spec the
junction's composite identity is the pair of foreign keys, and the
database layer's delete call addresses junction rows by the composite key
`textbookId_passageSetId`, so `prisma.passageSetTextbook.create` raises a
unique-constraint error when the pair is already present.  The insert
therefore fails exactly on a duplicate pair and appends the row
otherwise. -/
def junctionInsert (db : SqliteDB) (j : PassageSetTextbook) : Except String SqliteDB :=
  if j ∈ db.passageSetTextbooks then
    .error "Unique constraint failed on the fields: (`textbookId`,`passageSetId`)"
  else
    .ok { db with passageSetTextbooks := db.passageSetTextbooks ++ [j] }

/-- The inner loop body of `establishRelationships` (lines 354-374): an
unresolvable textbook reference is a warning; the insert is wrapped in
try/catch, a duplicate pair being logged and skipped. -/
def linkTextbook1 (psId : TargetId) (s : MigratorState) (tbMongo : String) : MigratorState :=
  match mapGet s.idMapping tbMongo with
  | none =>
      { s with warnings := s.warnings ++ ["⚠️ 교재 ID를 찾을 수 없음: " ++ tbMongo] }
  | some textbookId =>
      match junctionInsert s.db ⟨textbookId, psId⟩ with
      | .ok db' => { s with db := db' }
      | .error _ => { s with logs := s.logs ++ ["중복 관계 스킵"] }

/-- The outer loop body of `establishRelationships` (lines 349-375): a
passage set whose own identifier no longer resolves is skipped silently. -/
def establishRelationships1 (s : MigratorState) (p : MongoPassageSet) : MigratorState :=
  match mapGet s.idMapping p.mongoId with
  | none => s
  | some psId => p.textbooks.foldl (linkTextbook1 psId) s

/-- `establishRelationships` (lines 341-378). -/
def establishRelationships (src : MongoDB) (s : MigratorState) : MigratorState :=
  src.passagesets.foldl establishRelationships1 s

/-- The per-collection counts `verifyMigration` compares (lines 386-398):
`textbooks`, `passagesets`, `questions` and `systemprompts` — the prompt
version history is not among them. -/
structure CollectionStats where
  textbooks : Nat
  passagesets : Nat
  questions : Nat
  systemprompts : Nat
deriving DecidableEq

/-- The source-side counts (`countDocuments` per collection). -/
def mongoStatsOf (src : MongoDB) : CollectionStats :=
  ⟨src.textbooks.length, src.passagesets.length, src.questions.length,
    src.systemprompts.length⟩

/-- The target-side counts (`prisma.<kind>.count()`). -/
def sqliteStatsOf (db : SqliteDB) : CollectionStats :=
  ⟨db.textbooks.length, db.passageSets.length, db.questions.length,
    db.systemPrompts.length⟩

/-- The message of the error thrown on a count mismatch (line 412) — a
fixed string, independent of which kind mismatched and of the counts. -/
def verifyErrorMessage : String := "❌ 데이터 카운트 불일치! 마이그레이션 검토 필요"

/-- The comparison lines `verifyMigration` prints (lines 400-405) before
deciding; they carry both counts for each compared kind. -/
def verifyLogLines (m s : CollectionStats) : List String :=
  ["📊 마이그레이션 결과 비교:",
   "MongoDB → SQLite",
   "교재: " ++ toString m.textbooks ++ " → " ++ toString s.textbooks,
   "지문세트: " ++ toString m.passagesets ++ " → " ++ toString s.passagesets,
   "문제: " ++ toString m.questions ++ " → " ++ toString s.questions,
   "프롬프트: " ++ toString m.systemprompts ++ " → " ++ toString s.systemprompts]

/-- `verifyMigration` (lines 380-416): print the comparison table, then
throw the fixed mismatch error if any of the four compared counts
differ. -/
def verifyMigration (m s : CollectionStats) : List String × Except String Unit :=
  (verifyLogLines m s,
   if m.textbooks ≠ s.textbooks ∨ m.passagesets ≠ s.passagesets ∨
      m.questions ≠ s.questions ∨ m.systemprompts ≠ s.systemprompts then
     .error verifyErrorMessage
   else
     .ok ())

/-- The `migrate()` pipeline (lines 101-137) from the point the
connections are up: the five import passes in order, the relationship
pass, then verification; an error thrown by verification is re-thrown, so
it is the run's result. -/
def migrate (src : MongoDB) (init : SqliteDB) : MigratorState × Except String Unit :=
  let s1 := migrateTextbooks src (initialState init)
  let s2 := migratePassageSets src s1
  let s3 := migrateQuestions src s2
  let s4 := migrateSystemPrompts src s3
  let s5 := migrateSystemPromptVersions src s4
  let s6 := establishRelationships src s5
  let v := verifyMigration (mongoStatsOf src) (sqliteStatsOf s6.db)
  ({ s6 with logs := s6.logs ++ v.1 }, v.2)

/-- The process exit status of `npx tsx migrate-mongo-to-sqlite.ts`:
the entry point is `main().catch(console.error)` (lines 450-452), so a
rejected promise from a failed run is handled by logging it and the Node
process then exits normally — status 0 in both branches. -/
def migrateMainExitCode (src : MongoDB) (init : SqliteDB) : Nat :=
  match (migrate src init).2 with
  | .ok _ => 0
  | .error _ => 0

/-- A SQLite database file as the backup script sees it: opaque byte
content plus the outcome of `PRAGMA integrity_check` on it (`intact` is
true exactly when the check prints `ok`).  `cp` copies the value and
`sqlite3 .backup` produces a point-in-time copy of the live file. -/
structure SqliteFile where
  content : String
  intact : Bool
deriving DecidableEq

/-- `sqlite3 <file> "PRAGMA integrity_check;" | grep -q "ok"`. -/
def integrity_check (f : SqliteFile) : Bool := f.intact

/-- `rm -f` of a named file from a directory embedded as an association
list. -/
def fsRemove {α : Type} (m : List (String × α)) (k : String) : List (String × α) :=
  m.filter (fun p => decide (p.1 ≠ k))

/-- The filesystem state the backup/restore script operates on: the live
database at `DATABASE_PATH`, the `database/` and `files/` backup
directories under `BACKUP_BASE_PATH`, the timestamped pre-restore safety
copies, and the live file-asset directory at `FILES_PATH` (absent or an
opaque tree content). -/
structure BackupSystemState where
  liveDb : SqliteFile
  dbBackups : List (String × SqliteFile)
  preRestoreDb : List (String × SqliteFile)
  filesDir : Option String
  fileBackups : List (String × String)
  preRestoreFiles : List (String × String)
deriving DecidableEq

/-- `backup_database` (backup-restore.sh lines 86-107): checkpoint the
live store, produce the point-in-time copy under the backup name, run the
consistency check on the copy; on failure remove the copy and exit 1,
otherwise exit 0.  The `PRAGMA wal_checkpoint(FULL)` flush has no visible
effect in this embedding of the file. -/
def backup_database (st : BackupSystemState) (name : String) :
    BackupSystemState × Nat :=
  let copy := st.liveDb
  let st1 := { st with dbBackups := (name, copy) :: st.dbBackups }
  if integrity_check copy then
    (st1, 0)
  else
    ({ st1 with dbBackups := fsRemove st1.dbBackups name }, 1)

/-- `restore_database` (lines 182-222): missing backup is return 1; else
copy the live store aside under a timestamped pre-restore name, overwrite
the live store with the backup, and run the consistency check on the
result; on failure copy the safety copy back and return 1.  The `pm2`
service stop/start and the guarded `prisma db push` have no effect on the
store. -/
def restore_database (st : BackupSystemState) (name ts : String) :
    BackupSystemState × Nat :=
  match mapGet st.dbBackups name with
  | none => (st, 1)
  | some b =>
    let st1 := { st with preRestoreDb := (ts, st.liveDb) :: st.preRestoreDb }
    let st2 := { st1 with liveDb := b }
    if integrity_check st2.liveDb then
      (st2, 0)
    else
      match mapGet st2.preRestoreDb ts with
      | some orig => ({ st2 with liveDb := orig }, 1)
      | none => (st2, 1)

/-- `restore_files` (lines 225-248): missing archive is return 1; else the
current file directory, if present, is moved aside under a timestamped
name, and the archive is extracted in its place. -/
def restore_files (st : BackupSystemState) (name ts : String) :
    BackupSystemState × Nat :=
  match mapGet st.fileBackups name with
  | none => (st, 1)
  | some archive =>
    let st1 :=
      match st.filesDir with
      | some cur =>
          { st with filesDir := none,
                    preRestoreFiles := (ts, cur) :: st.preRestoreFiles }
      | none => st
    ({ st1 with filesDir := some archive }, 0)

/-- The `restore` command with neither `--db-only` nor `--files-only`
(main, lines 455-458): `restore_database` then `restore_files`, under
`set -e` (line 7), so a non-zero status from the database restore
terminates the script with that status before `restore_files` runs. -/
def restoreFull (st : BackupSystemState) (name tsDb tsFiles : String) :
    BackupSystemState × Nat :=
  let r1 := restore_database st name tsDb
  if r1.2 ≠ 0 then r1
  else restore_files r1.1 name tsFiles

/-- `MAX_LOCAL_BACKUPS` (line 23). -/
def MAX_LOCAL_BACKUPS : Nat := 30

/-- `MAX_CLOUD_BACKUPS` (line 24). -/
def MAX_CLOUD_BACKUPS : Nat := 90

/-- The ordering `ls -t` lists a directory in: newer (greater mtime)
first. -/
def newerEq (a b : String × Nat) : Prop := b.2 ≤ a.2

instance : DecidableRel newerEq := fun a b => Nat.decLe b.2 a.2

instance : IsTotal (String × Nat) newerEq := ⟨fun a b => Nat.le_total b.2 a.2⟩

instance : IsTrans (String × Nat) newerEq := ⟨fun _ _ _ h1 h2 => Nat.le_trans h2 h1⟩

/-- The ascending date ordering `aws s3 ls ... | sort -k1,2` produces. -/
def olderEq (a b : String × Nat) : Prop := a.2 ≤ b.2

instance : DecidableRel olderEq := fun a b => Nat.decLe a.2 b.2

/-- A backup directory listed by `ls -t`: entries (name, mtime), newest
first. -/
def lsT (dir : List (String × Nat)) : List (String × Nat) :=
  dir.insertionSort newerEq

/-- `ls -t "$backup_dir" | tail -n +$((MAX_LOCAL_BACKUPS + 1))`
(line 291): everything after the `MAX_LOCAL_BACKUPS` newest entries. -/
def oldLocalBackups (dir : List (String × Nat)) : List (String × Nat) :=
  (lsT dir).drop MAX_LOCAL_BACKUPS

/-- The per-category loop of `cleanup_backups` (lines 288-301): in dry-run
the candidates are only echoed; otherwise each candidate name is
`rm -f`-ed from the directory. -/
def cleanupDir (dryRun : Bool) (dir : List (String × Nat)) : List (String × Nat) :=
  if dryRun then dir
  else dir.filter (fun e => decide (e.1 ∉ (oldLocalBackups dir).map Prod.fst))

/-- The cleanup report lines for one category: `Would delete:` in dry-run,
`Deleted old backup:` otherwise. -/
def cleanupDirReport (dryRun : Bool) (path : String) (dir : List (String × Nat)) :
    List String :=
  (oldLocalBackups dir).map (fun e =>
    if dryRun then "Would delete: " ++ path ++ "/" ++ e.1
    else "Deleted old backup: " ++ e.1)

/-- The cloud deletion candidates (line 305):
`aws s3 ls ... | sort -k1,2 | head -n -$MAX_CLOUD_BACKUPS` — everything
but the `MAX_CLOUD_BACKUPS` newest objects, in ascending date order. -/
def oldCloudBackups (cloud : List (String × Nat)) : List (String × Nat) :=
  (cloud.insertionSort olderEq).take (cloud.length - MAX_CLOUD_BACKUPS)

/-- The three local backup categories, the cloud listing and whether the
`aws` CLI and bucket are reachable (the guard at line 304). -/
structure BackupDirs where
  database : List (String × Nat)
  files : List (String × Nat)
  full : List (String × Nat)
  cloudConfigured : Bool
  cloud : List (String × Nat)
deriving DecidableEq

/-- `cleanup_backups` (lines 282-319): apply the retention rule to each
local category, then to the cloud listing when it is reachable; in dry-run
nothing is deleted anywhere and the candidates are only reported. -/
def cleanup_backups (dryRun : Bool) (st : BackupDirs) : BackupDirs × List String :=
  ({ database := cleanupDir dryRun st.database
     files := cleanupDir dryRun st.files
     full := cleanupDir dryRun st.full
     cloudConfigured := st.cloudConfigured
     cloud :=
       if st.cloudConfigured && !dryRun then
         st.cloud.filter (fun e => decide (e.1 ∉ (oldCloudBackups st.cloud).map Prod.fst))
       else st.cloud },
   cleanupDirReport dryRun "database" st.database ++
   cleanupDirReport dryRun "files" st.files ++
   cleanupDirReport dryRun "full" st.full ++
   (oldCloudBackups st.cloud).map (fun e =>
      if dryRun then "Would delete from cloud: " ++ e.1
      else "Deleted old cloud backup: " ++ e.1))

/-- The association list the textbook and passage-set import loops build
in `idMapping`: processing `ids` with the counter at `n` pushes, for the
i-th identifier, the pair (identifier, n + i), most recent first.  Used to
characterize the mapping the folds produce. -/
def assignedList : List String → Nat → List (String × Nat)
  | [], _ => []
  | k :: ks, n => assignedList ks (n + 1) ++ [(k, n)]

/-- A textbook record with a given source identifier. -/
def tbRec (i : String) : MongoTextbook := ⟨i, "t", "pub", "sub", "lv", "gr", 0, 0⟩

/-- A passage-set record with a given source identifier and textbook
references. -/
def psRec (i : String) (tbs : List String) : MongoPassageSet :=
  ⟨i, "t", "passage", "comment", "qr-" ++ i, tbs, 0, 0⟩

/-- A question record with a given source identifier and passage-set
reference. -/
def qRec (i s : String) : MongoQuestion := ⟨i, s, 1, "q", ["a", "b"], "a", "e", 0, 0⟩

/-- An empty source snapshot. -/
def emptyMongoDB : MongoDB := ⟨[], [], [], [], []⟩

/-- A target store that already holds one prompt-version row before the
migration runs. -/
def c2InitDb : SqliteDB :=
  { emptySqliteDB with systemPromptVersions := [⟨0, "k", "c", 1, "d", "u", 0⟩] }

/-- A source with one textbook, one passage set and one orphan question
whose referenced passage set is absent. -/
def c2OrphanSrc : MongoDB :=
  ⟨[tbRec "t1"], [psRec "p1" []], [qRec "q1" "missing"], [], []⟩

/-- A source with one orphan question, used against the entry point's
exit status. -/
def c4OrphanSrc : MongoDB := ⟨[], [psRec "p1" []], [qRec "q1" "gone"], [], []⟩

/-- A source with one passage set and one question referencing it. -/
def c5Src : MongoDB := ⟨[], [psRec "p1" []], [qRec "q1" "p1"], [], []⟩

/-- A source with one textbook and one passage set referencing it. -/
def c5WitnessSrc : MongoDB := ⟨[tbRec "t1"], [psRec "p1" ["t1"]], [], [], []⟩

/-- A source whose textbook collection contains the same source identifier
twice. -/
def c6Src : MongoDB := ⟨[tbRec "a", tbRec "a"], [], [], [], []⟩

/-- A migrator state in which textbook "t1" and passage set "p1" are
already imported. -/
def c7State : MigratorState := ⟨[("t1", 0), ("p1", 1)], emptySqliteDB, 2, [], []⟩

/-- A source whose single passage set references the same textbook
twice. -/
def c7Src : MongoDB := ⟨[], [psRec "p1" ["t1", "t1"]], [], [], []⟩

/-- A filesystem state with an intact live store and one corrupt database
backup named "b1". -/
def c1State : BackupSystemState :=
  ⟨⟨"live-content", true⟩, [("b1", ⟨"corrupt-content", false⟩)], [], none, [], []⟩

/-- A filesystem state whose live store fails the consistency check. -/
def c8State : BackupSystemState :=
  ⟨⟨"broken-content", false⟩, [], [], none, [], []⟩

/-- A filesystem state with a corrupt database backup, a files archive of
the same name, and a live file-asset directory. -/
def c10State : BackupSystemState :=
  ⟨⟨"live-content", true⟩, [("b1", ⟨"corrupt-content", false⟩)], [],
   some "current-files", [("b1", "archived-files")], []⟩

/-- A database backup category holding 35 = MAX_LOCAL_BACKUPS + 5 backups
with distinct names and modification times. -/
def c9Dirs : BackupDirs :=
  ⟨(List.range 35).map (fun i => ("backup_" ++ toString i, i)), [], [], false, []⟩

/-- A target store that already holds one textbook row, so that the count
comparison mismatches. -/
def c3InitDb : SqliteDB :=
  { emptySqliteDB with textbooks := [⟨0, "t", "pub", "sub", "lv", "gr", 0, 0⟩] }

/-- The migrator state after the import passes and the relationship pass,
before verification — the state `verifyMigration` is run against.  This is
definitionally the state threaded through `migrate`. -/
def importedState (src : MongoDB) (init : SqliteDB) : MigratorState :=
  establishRelationships src
    (migrateSystemPromptVersions src
      (migrateSystemPrompts src
        (migrateQuestions src
          (migratePassageSets src
            (migrateTextbooks src (initialState init))))))

/-! ### Generic fold lemmas -/

/-- A quantity a fold's step never changes is unchanged by the fold. -/
theorem foldl_fix {α β γ : Type} (f : α → β → α) (P : α → γ)
    (h : ∀ s x, P (f s x) = P s) (l : List β) :
    ∀ s : α, P (l.foldl f s) = P s := by
  induction l with
  | nil => intro s; rfl
  | cons x xs ih => intro s; rw [List.foldl_cons, ih, h]

/-- A quantity each step of a fold increments grows by the list length. -/
theorem foldl_addLen {α β : Type} (f : α → β → α) (P : α → Nat)
    (h : ∀ s x, P (f s x) = P s + 1) (l : List β) :
    ∀ s : α, P (l.foldl f s) = P s + l.length := by
  induction l with
  | nil => intro s; rfl
  | cons x xs ih => intro s; rw [List.foldl_cons, ih, h, List.length_cons]; omega

/-! ### Lemmas about `mapGet` and `assignedList` -/

/-- Reading a map concatenation: the left part wins when it binds the
key. -/
theorem mapGet_append {α : Type} (l1 l2 : List (String × α)) (k : String) :
    mapGet (l1 ++ l2) k =
      match mapGet l1 k with
      | some v => some v
      | none => mapGet l2 k := by
  induction l1 with
  | nil => simp [mapGet]
  | cons p rest ih =>
      obtain ⟨k', v⟩ := p
      by_cases h : k' = k <;> simp [mapGet, h, ih]

/-- An identifier that was never assigned is absent from the built map. -/
theorem mapGet_assignedList_of_not_mem (k : String) :
    ∀ (ids : List String) (n : Nat), k ∉ ids →
      mapGet (assignedList ids n) k = none := by
  intro ids
  induction ids with
  | nil => intro n _; rfl
  | cons a rest ih =>
      intro n hk
      rw [assignedList, mapGet_append, ih (n + 1) (fun h => hk (List.mem_cons_of_mem a h))]
      have ha : a ≠ k := fun h => hk (h ▸ List.mem_cons_self a rest)
      simp [mapGet, ha]

/-- Every binding the import loops created is positional: the value of
the i-th assigned identifier is the counter base plus i. -/
theorem mapGet_assignedList_some :
    ∀ (ids : List String) (n : Nat) (k : String) (v : Nat),
      mapGet (assignedList ids n) k = some v →
      ∃ i, i < ids.length ∧ ids[i]? = some k ∧ v = n + i := by
  intro ids
  induction ids with
  | nil => intro n k v h; simp [assignedList, mapGet] at h
  | cons a rest ih =>
      intro n k v h
      rw [assignedList, mapGet_append] at h
      cases hA : mapGet (assignedList rest (n + 1)) k with
      | some w =>
          rw [hA] at h
          obtain ⟨i, hi, hk, hv⟩ := ih (n + 1) k w (by rw [hA])
          refine ⟨i + 1, by simpa using hi, by simpa using hk, ?_⟩
          cases h
          omega
      | none =>
          rw [hA] at h
          by_cases ha : a = k
          · refine ⟨0, by simp, by simpa using ha, ?_⟩
            simp [mapGet, ha] at h
            omega
          · simp [mapGet, ha] at h

/-- Every assigned identifier is readable back from the built map. -/
theorem mapGet_assignedList_isSome :
    ∀ (ids : List String) (n : Nat) (k : String), k ∈ ids →
      ∃ v, mapGet (assignedList ids n) k = some v := by
  intro ids
  induction ids with
  | nil => intro n k h; cases h
  | cons a rest ih =>
      intro n k hk
      rw [assignedList, mapGet_append]
      by_cases hr : k ∈ rest
      · obtain ⟨v, hv⟩ := ih (n + 1) k hr
        exact ⟨v, by rw [hv]⟩
      · have ha : a = k := by
          rcases List.mem_cons.mp hk with h | h
          · exact h.symm
          · exact absurd h hr
        rw [mapGet_assignedList_of_not_mem k rest (n + 1) hr]
        exact ⟨n, by simp [mapGet, ha]⟩

/-! ### Shape of each migration pass -/

/-- The textbook pass: rows appended one per source record, the mapping
extended by the assigned pairs, the counter advanced, everything else in
the store untouched. -/
theorem migrateTextbooks_shape (src : MongoDB) (s : MigratorState) :
    (migrateTextbooks src s).db.textbooks.length
        = s.db.textbooks.length + src.textbooks.length ∧
    (migrateTextbooks src s).idMapping
        = assignedList (src.textbooks.map MongoTextbook.mongoId) s.nextId ++ s.idMapping ∧
    (migrateTextbooks src s).nextId = s.nextId + src.textbooks.length ∧
    (migrateTextbooks src s).db.passageSets = s.db.passageSets ∧
    (migrateTextbooks src s).db.questions = s.db.questions ∧
    (migrateTextbooks src s).db.systemPrompts = s.db.systemPrompts ∧
    (migrateTextbooks src s).db.systemPromptVersions = s.db.systemPromptVersions ∧
    (migrateTextbooks src s).db.passageSetTextbooks = s.db.passageSetTextbooks := by
  refine ⟨foldl_addLen migrateTextbook1 (fun s => s.db.textbooks.length)
      (fun s t => by simp [migrateTextbook1]) _ s, ?_,
    foldl_addLen migrateTextbook1 (fun s => s.nextId) (fun s t => rfl) _ s,
    foldl_fix migrateTextbook1 (fun s => s.db.passageSets) (fun s t => rfl) _ s,
    foldl_fix migrateTextbook1 (fun s => s.db.questions) (fun s t => rfl) _ s,
    foldl_fix migrateTextbook1 (fun s => s.db.systemPrompts) (fun s t => rfl) _ s,
    foldl_fix migrateTextbook1 (fun s => s.db.systemPromptVersions) (fun s t => rfl) _ s,
    foldl_fix migrateTextbook1 (fun s => s.db.passageSetTextbooks) (fun s t => rfl) _ s⟩
  show (List.foldl migrateTextbook1 s src.textbooks).idMapping = _
  induction src.textbooks generalizing s with
  | nil => simp [assignedList]
  | cons t rest ih =>
      rw [List.foldl_cons, ih, List.map_cons, assignedList, List.append_assoc]
      rfl

/-- The passage-set pass, with the same shape as the textbook pass. -/
theorem migratePassageSets_shape (src : MongoDB) (s : MigratorState) :
    (migratePassageSets src s).db.passageSets.length
        = s.db.passageSets.length + src.passagesets.length ∧
    (migratePassageSets src s).idMapping
        = assignedList (src.passagesets.map MongoPassageSet.mongoId) s.nextId ++ s.idMapping ∧
    (migratePassageSets src s).nextId = s.nextId + src.passagesets.length ∧
    (migratePassageSets src s).db.textbooks = s.db.textbooks ∧
    (migratePassageSets src s).db.questions = s.db.questions ∧
    (migratePassageSets src s).db.systemPrompts = s.db.systemPrompts ∧
    (migratePassageSets src s).db.systemPromptVersions = s.db.systemPromptVersions ∧
    (migratePassageSets src s).db.passageSetTextbooks = s.db.passageSetTextbooks := by
  refine ⟨foldl_addLen migratePassageSet1 (fun s => s.db.passageSets.length)
      (fun s p => by simp [migratePassageSet1]) _ s, ?_,
    foldl_addLen migratePassageSet1 (fun s => s.nextId) (fun s p => rfl) _ s,
    foldl_fix migratePassageSet1 (fun s => s.db.textbooks) (fun s p => rfl) _ s,
    foldl_fix migratePassageSet1 (fun s => s.db.questions) (fun s p => rfl) _ s,
    foldl_fix migratePassageSet1 (fun s => s.db.systemPrompts) (fun s p => rfl) _ s,
    foldl_fix migratePassageSet1 (fun s => s.db.systemPromptVersions) (fun s p => rfl) _ s,
    foldl_fix migratePassageSet1 (fun s => s.db.passageSetTextbooks) (fun s p => rfl) _ s⟩
  show (List.foldl migratePassageSet1 s src.passagesets).idMapping = _
  induction src.passagesets generalizing s with
  | nil => simp [assignedList]
  | cons p rest ih =>
      rw [List.foldl_cons, ih, List.map_cons, assignedList, List.append_assoc]
      rfl

/-- One question step leaves everything except the question table and the
counter unchanged, and inserts a row exactly when the referenced passage
set resolves. -/
theorem migrateQuestion1_shape (s : MigratorState) (q : MongoQuestion) :
    (migrateQuestion1 s q).idMapping = s.idMapping ∧
    (migrateQuestion1 s q).db.textbooks = s.db.textbooks ∧
    (migrateQuestion1 s q).db.passageSets = s.db.passageSets ∧
    (migrateQuestion1 s q).db.systemPrompts = s.db.systemPrompts ∧
    (migrateQuestion1 s q).db.systemPromptVersions = s.db.systemPromptVersions ∧
    (migrateQuestion1 s q).db.passageSetTextbooks = s.db.passageSetTextbooks ∧
    (migrateQuestion1 s q).db.questions.length
      = s.db.questions.length +
        (if (mapGet s.idMapping q.setId).isSome then 1 else 0) := by
  unfold migrateQuestion1
  cases h : mapGet s.idMapping q.setId <;> simp [h]

/-- The question pass: the mapping is read, never written, and the rows
appended are exactly the source questions whose passage-set reference
resolves through the mapping. -/
theorem migrateQuestions_shape (src : MongoDB) (s : MigratorState) :
    (migrateQuestions src s).idMapping = s.idMapping ∧
    (migrateQuestions src s).db.textbooks = s.db.textbooks ∧
    (migrateQuestions src s).db.passageSets = s.db.passageSets ∧
    (migrateQuestions src s).db.systemPrompts = s.db.systemPrompts ∧
    (migrateQuestions src s).db.systemPromptVersions = s.db.systemPromptVersions ∧
    (migrateQuestions src s).db.passageSetTextbooks = s.db.passageSetTextbooks ∧
    (migrateQuestions src s).db.questions.length
      = s.db.questions.length +
        (src.questions.filter
          (fun q => (mapGet s.idMapping q.setId).isSome)).length := by
  refine ⟨foldl_fix migrateQuestion1 (fun s => s.idMapping)
      (fun s q => (migrateQuestion1_shape s q).1) _ s,
    foldl_fix migrateQuestion1 (fun s => s.db.textbooks)
      (fun s q => (migrateQuestion1_shape s q).2.1) _ s,
    foldl_fix migrateQuestion1 (fun s => s.db.passageSets)
      (fun s q => (migrateQuestion1_shape s q).2.2.1) _ s,
    foldl_fix migrateQuestion1 (fun s => s.db.systemPrompts)
      (fun s q => (migrateQuestion1_shape s q).2.2.2.1) _ s,
    foldl_fix migrateQuestion1 (fun s => s.db.systemPromptVersions)
      (fun s q => (migrateQuestion1_shape s q).2.2.2.2.1) _ s,
    foldl_fix migrateQuestion1 (fun s => s.db.passageSetTextbooks)
      (fun s q => (migrateQuestion1_shape s q).2.2.2.2.2.1) _ s, ?_⟩
  show (List.foldl migrateQuestion1 s src.questions).db.questions.length = _
  induction src.questions generalizing s with
  | nil => simp
  | cons q rest ih =>
      rw [List.foldl_cons, ih]
      have hmap : (migrateQuestion1 s q).idMapping = s.idMapping :=
        (migrateQuestion1_shape s q).1
      have hlen := (migrateQuestion1_shape s q).2.2.2.2.2.2
      rw [hmap, hlen]
      cases h : mapGet s.idMapping q.setId <;> simp [h, List.filter_cons] <;> omega

/-- The prompt pass: rows appended one per record, the mapping and the
rest of the store untouched. -/
theorem migrateSystemPrompts_shape (src : MongoDB) (s : MigratorState) :
    (migrateSystemPrompts src s).idMapping = s.idMapping ∧
    (migrateSystemPrompts src s).db.textbooks = s.db.textbooks ∧
    (migrateSystemPrompts src s).db.passageSets = s.db.passageSets ∧
    (migrateSystemPrompts src s).db.questions = s.db.questions ∧
    (migrateSystemPrompts src s).db.systemPromptVersions = s.db.systemPromptVersions ∧
    (migrateSystemPrompts src s).db.passageSetTextbooks = s.db.passageSetTextbooks ∧
    (migrateSystemPrompts src s).db.systemPrompts.length
      = s.db.systemPrompts.length + src.systemprompts.length :=
  ⟨foldl_fix migrateSystemPrompt1 (fun s => s.idMapping) (fun s p => rfl) _ s,
   foldl_fix migrateSystemPrompt1 (fun s => s.db.textbooks) (fun s p => rfl) _ s,
   foldl_fix migrateSystemPrompt1 (fun s => s.db.passageSets) (fun s p => rfl) _ s,
   foldl_fix migrateSystemPrompt1 (fun s => s.db.questions) (fun s p => rfl) _ s,
   foldl_fix migrateSystemPrompt1 (fun s => s.db.systemPromptVersions) (fun s p => rfl) _ s,
   foldl_fix migrateSystemPrompt1 (fun s => s.db.passageSetTextbooks) (fun s p => rfl) _ s,
   foldl_addLen migrateSystemPrompt1 (fun s => s.db.systemPrompts.length)
     (fun s p => by simp [migrateSystemPrompt1]) _ s⟩

/-- The prompt-version pass, with the same shape as the prompt pass. -/
theorem migrateSystemPromptVersions_shape (src : MongoDB) (s : MigratorState) :
    (migrateSystemPromptVersions src s).idMapping = s.idMapping ∧
    (migrateSystemPromptVersions src s).db.textbooks = s.db.textbooks ∧
    (migrateSystemPromptVersions src s).db.passageSets = s.db.passageSets ∧
    (migrateSystemPromptVersions src s).db.questions = s.db.questions ∧
    (migrateSystemPromptVersions src s).db.systemPrompts = s.db.systemPrompts ∧
    (migrateSystemPromptVersions src s).db.passageSetTextbooks = s.db.passageSetTextbooks ∧
    (migrateSystemPromptVersions src s).db.systemPromptVersions.length
      = s.db.systemPromptVersions.length + src.systemprompversions.length :=
  ⟨foldl_fix migrateSystemPromptVersion1 (fun s => s.idMapping) (fun s v => rfl) _ s,
   foldl_fix migrateSystemPromptVersion1 (fun s => s.db.textbooks) (fun s v => rfl) _ s,
   foldl_fix migrateSystemPromptVersion1 (fun s => s.db.passageSets) (fun s v => rfl) _ s,
   foldl_fix migrateSystemPromptVersion1 (fun s => s.db.questions) (fun s v => rfl) _ s,
   foldl_fix migrateSystemPromptVersion1 (fun s => s.db.systemPrompts) (fun s v => rfl) _ s,
   foldl_fix migrateSystemPromptVersion1 (fun s => s.db.passageSetTextbooks) (fun s v => rfl) _ s,
   foldl_addLen migrateSystemPromptVersion1 (fun s => s.db.systemPromptVersions.length)
     (fun s v => by simp [migrateSystemPromptVersion1]) _ s⟩

/-- One relationship-link step never touches the entity tables, the
mapping or the counter. -/
theorem linkTextbook1_frame (psId : TargetId) (s : MigratorState) (tbm : String) :
    (linkTextbook1 psId s tbm).db.textbooks = s.db.textbooks ∧
    (linkTextbook1 psId s tbm).db.passageSets = s.db.passageSets ∧
    (linkTextbook1 psId s tbm).db.questions = s.db.questions ∧
    (linkTextbook1 psId s tbm).db.systemPrompts = s.db.systemPrompts ∧
    (linkTextbook1 psId s tbm).db.systemPromptVersions = s.db.systemPromptVersions ∧
    (linkTextbook1 psId s tbm).idMapping = s.idMapping := by
  unfold linkTextbook1 junctionInsert
  cases mapGet s.idMapping tbm with
  | none => simp
  | some tid =>
      by_cases h : (⟨tid, psId⟩ : PassageSetTextbook) ∈ s.db.passageSetTextbooks <;>
        simp [h]

/-- One passage set's relationship pass never touches the entity tables,
the mapping or the counter. -/
theorem establishRelationships1_frame (s : MigratorState) (p : MongoPassageSet) :
    (establishRelationships1 s p).db.textbooks = s.db.textbooks ∧
    (establishRelationships1 s p).db.passageSets = s.db.passageSets ∧
    (establishRelationships1 s p).db.questions = s.db.questions ∧
    (establishRelationships1 s p).db.systemPrompts = s.db.systemPrompts ∧
    (establishRelationships1 s p).db.systemPromptVersions = s.db.systemPromptVersions ∧
    (establishRelationships1 s p).idMapping = s.idMapping := by
  unfold establishRelationships1
  cases mapGet s.idMapping p.mongoId with
  | none => exact ⟨rfl, rfl, rfl, rfl, rfl, rfl⟩
  | some psId =>
      exact ⟨foldl_fix (linkTextbook1 psId) (fun s => s.db.textbooks)
          (fun s x => (linkTextbook1_frame psId s x).1) _ s,
        foldl_fix (linkTextbook1 psId) (fun s => s.db.passageSets)
          (fun s x => (linkTextbook1_frame psId s x).2.1) _ s,
        foldl_fix (linkTextbook1 psId) (fun s => s.db.questions)
          (fun s x => (linkTextbook1_frame psId s x).2.2.1) _ s,
        foldl_fix (linkTextbook1 psId) (fun s => s.db.systemPrompts)
          (fun s x => (linkTextbook1_frame psId s x).2.2.2.1) _ s,
        foldl_fix (linkTextbook1 psId) (fun s => s.db.systemPromptVersions)
          (fun s x => (linkTextbook1_frame psId s x).2.2.2.2.1) _ s,
        foldl_fix (linkTextbook1 psId) (fun s => s.idMapping)
          (fun s x => (linkTextbook1_frame psId s x).2.2.2.2.2) _ s⟩

/-- The relationship pass only writes the junction table. -/
theorem establishRelationships_frame (src : MongoDB) (s : MigratorState) :
    (establishRelationships src s).db.textbooks = s.db.textbooks ∧
    (establishRelationships src s).db.passageSets = s.db.passageSets ∧
    (establishRelationships src s).db.questions = s.db.questions ∧
    (establishRelationships src s).db.systemPrompts = s.db.systemPrompts ∧
    (establishRelationships src s).db.systemPromptVersions = s.db.systemPromptVersions ∧
    (establishRelationships src s).idMapping = s.idMapping :=
  ⟨foldl_fix establishRelationships1 (fun s => s.db.textbooks)
      (fun s p => (establishRelationships1_frame s p).1) _ s,
   foldl_fix establishRelationships1 (fun s => s.db.passageSets)
      (fun s p => (establishRelationships1_frame s p).2.1) _ s,
   foldl_fix establishRelationships1 (fun s => s.db.questions)
      (fun s p => (establishRelationships1_frame s p).2.2.1) _ s,
   foldl_fix establishRelationships1 (fun s => s.db.systemPrompts)
      (fun s p => (establishRelationships1_frame s p).2.2.2.1) _ s,
   foldl_fix establishRelationships1 (fun s => s.db.systemPromptVersions)
      (fun s p => (establishRelationships1_frame s p).2.2.2.2.1) _ s,
   foldl_fix establishRelationships1 (fun s => s.idMapping)
      (fun s p => (establishRelationships1_frame s p).2.2.2.2.2) _ s⟩

/-! ### The pipeline around verification -/

/-- `migrate` is `importedState` followed by verification: the store, the
mapping, and the run's outcome are those of the imported state and of
`verifyMigration` on its counts. -/
theorem migrate_components (src : MongoDB) (init : SqliteDB) :
    (migrate src init).1.db = (importedState src init).db ∧
    (migrate src init).1.idMapping = (importedState src init).idMapping ∧
    (migrate src init).1.logs
      = (importedState src init).logs ++
        verifyLogLines (mongoStatsOf src) (sqliteStatsOf (importedState src init).db) ∧
    (migrate src init).2
      = (verifyMigration (mongoStatsOf src)
          (sqliteStatsOf (importedState src init).db)).2 :=
  ⟨rfl, rfl, rfl, rfl⟩

/-- Any count mismatch makes `verifyMigration` throw the fixed error. -/
theorem verifyMigration_mismatch (m s : CollectionStats) (h : m ≠ s) :
    (verifyMigration m s).2 = .error verifyErrorMessage := by
  unfold verifyMigration
  rw [if_pos]
  by_contra hd
  push_neg at hd
  obtain ⟨h1, h2, h3, h4⟩ := hd
  obtain ⟨mt, mp, mq, ms⟩ := m
  obtain ⟨st, sp, sq, ss⟩ := s
  simp_all

/-- If `verifyMigration` does not throw, all four compared counts agree. -/
theorem verifyMigration_ok (m s : CollectionStats)
    (h : (verifyMigration m s).2 = .ok ()) : m = s := by
  by_contra hne
  rw [verifyMigration_mismatch m s hne] at h
  cases h

/-- The mapping after the whole run: the passage-set assignments, base
counter at the number of textbooks, stacked on the textbook assignments,
base counter zero. -/
theorem importedState_idMapping (src : MongoDB) (init : SqliteDB) :
    (importedState src init).idMapping
      = assignedList (src.passagesets.map MongoPassageSet.mongoId)
          src.textbooks.length ++
        assignedList (src.textbooks.map MongoTextbook.mongoId) 0 := by
  unfold importedState
  rw [(establishRelationships_frame src _).2.2.2.2.2,
      (migrateSystemPromptVersions_shape src _).1,
      (migrateSystemPrompts_shape src _).1,
      (migrateQuestions_shape src _).1,
      (migratePassageSets_shape src _).2.1,
      (migrateTextbooks_shape src _).2.1,
      (migrateTextbooks_shape src _).2.2.1]
  simp [initialState]

/-- The table sizes after the whole run, over the initial store's. -/
theorem importedState_counts (src : MongoDB) (init : SqliteDB) :
    (importedState src init).db.textbooks.length
        = init.textbooks.length + src.textbooks.length ∧
    (importedState src init).db.passageSets.length
        = init.passageSets.length + src.passagesets.length ∧
    (importedState src init).db.systemPrompts.length
        = init.systemPrompts.length + src.systemprompts.length ∧
    (importedState src init).db.systemPromptVersions.length
        = init.systemPromptVersions.length + src.systemprompversions.length ∧
    (importedState src init).db.questions.length
        = init.questions.length +
          (src.questions.filter (fun q =>
            (mapGet (assignedList (src.passagesets.map MongoPassageSet.mongoId)
                src.textbooks.length ++
              assignedList (src.textbooks.map MongoTextbook.mongoId) 0)
              q.setId).isSome)).length := by
  unfold importedState
  have e1 := migrateTextbooks_shape src (initialState init)
  have e2 := migratePassageSets_shape src (migrateTextbooks src (initialState init))
  have e3 := migrateQuestions_shape src
    (migratePassageSets src (migrateTextbooks src (initialState init)))
  have e4 := migrateSystemPrompts_shape src
    (migrateQuestions src (migratePassageSets src (migrateTextbooks src (initialState init))))
  have e5 := migrateSystemPromptVersions_shape src
    (migrateSystemPrompts src (migrateQuestions src
      (migratePassageSets src (migrateTextbooks src (initialState init)))))
  have e6 := establishRelationships_frame src
    (migrateSystemPromptVersions src (migrateSystemPrompts src (migrateQuestions src
      (migratePassageSets src (migrateTextbooks src (initialState init))))))
  refine ⟨?_, ?_, ?_, ?_, ?_⟩
  · rw [e6.1, e5.2.1, e4.2.1, e3.2.1, e2.2.2.2.1, e1.1]; rfl
  · rw [e6.2.1, e5.2.2.1, e4.2.2.1, e3.2.2.1, e2.1, e1.2.2.2.1]; rfl
  · rw [e6.2.2.2.1, e5.2.2.2.2.1, e4.2.2.2.2.2.2, e3.2.2.2.1, e2.2.2.2.2.2.1,
        e1.2.2.2.2.2.1]
    rfl
  · rw [e6.2.2.2.2.1, e5.2.2.2.2.2.2, e4.2.2.2.2.1, e3.2.2.2.2.1, e2.2.2.2.2.2.2.1,
        e1.2.2.2.2.2.2.1]
    rfl
  · rw [e6.2.2.1, e5.2.2.2.1, e4.2.2.2.1, e3.2.2.2.2.2.2, e2.2.2.2.2.1,
        e1.2.2.2.2.1, e2.2.1, e1.2.1, e1.2.2.1]
    simp [initialState]

/-- Filtering out a present element shortens the list strictly. -/
theorem length_filter_lt {α : Type} (p : α → Bool) (l : List α) (a : α)
    (ha : a ∈ l) (hpa : p a = false) : (l.filter p).length < l.length := by
  induction l with
  | nil => cases ha
  | cons x xs ih =>
      rcases List.mem_cons.mp ha with h | hx
      · subst h
        have := List.length_filter_le p xs
        simp [List.filter_cons, hpa]
        omega
      · have := ih hx
        by_cases hpx : p x = true <;> simp [List.filter_cons, hpx] <;> omega

/-- A successful map read through an append comes from the left part, or
from the right part with the left part missing the key. -/
theorem mapGet_append_cases {α : Type} (l1 l2 : List (String × α)) (k : String)
    (v : α) (h : mapGet (l1 ++ l2) k = some v) :
    mapGet l1 k = some v ∨ (mapGet l1 k = none ∧ mapGet l2 k = some v) := by
  rw [mapGet_append] at h
  cases h1 : mapGet l1 k with
  | some w =>
      rw [h1] at h
      simp only [] at h
      exact Or.inl h
  | none =>
      rw [h1] at h
      exact Or.inr ⟨rfl, h⟩

/-! ### C2 — count reconciliation -/

/-- C2 (amended, part of the groundwork): what the question filter
predicate evaluates to on an orphan question. -/
theorem orphan_not_resolvable (src : MongoDB) (q : MongoQuestion)
    (ht : q.setId ∉ src.textbooks.map MongoTextbook.mongoId)
    (hp : q.setId ∉ src.passagesets.map MongoPassageSet.mongoId) :
    mapGet (assignedList (src.passagesets.map MongoPassageSet.mongoId)
        src.textbooks.length ++
      assignedList (src.textbooks.map MongoTextbook.mongoId) 0) q.setId = none := by
  rw [mapGet_append,
      mapGet_assignedList_of_not_mem q.setId _ src.textbooks.length hp,
      mapGet_assignedList_of_not_mem q.setId _ 0 ht]

/-- C2 (amended): after a migration run that completes successfully
(`verifyMigration` returns without throwing), the source and target counts
agree for the four kinds the verifier compares — Textbook, PassageSet,
Question, SystemPrompt.  SystemPromptVersion is not reconciled by the
verifier; on a run started from an empty target its count still matches
the source because the version import pass copies every record.  A source
containing an orphan Question, whose referenced PassageSet is absent,
makes a run from an empty target fail verification with the count-mismatch
error. -/
theorem migration_count_reconciliation (src : MongoDB) :
    (∀ init : SqliteDB, (migrate src init).2 = .ok () →
       src.textbooks.length = (migrate src init).1.db.textbooks.length ∧
       src.passagesets.length = (migrate src init).1.db.passageSets.length ∧
       src.questions.length = (migrate src init).1.db.questions.length ∧
       src.systemprompts.length = (migrate src init).1.db.systemPrompts.length) ∧
    (migrate src emptySqliteDB).1.db.systemPromptVersions.length
      = src.systemprompversions.length ∧
    (∀ q ∈ src.questions,
       q.setId ∉ src.textbooks.map MongoTextbook.mongoId →
       q.setId ∉ src.passagesets.map MongoPassageSet.mongoId →
       (migrate src emptySqliteDB).2 = .error verifyErrorMessage) := by
  refine ⟨?_, ?_, ?_⟩
  · intro init hok
    rw [(migrate_components src init).2.2.2] at hok
    have hms := verifyMigration_ok _ _ hok
    rw [(migrate_components src init).1]
    exact ⟨congrArg CollectionStats.textbooks hms,
           congrArg CollectionStats.passagesets hms,
           congrArg CollectionStats.questions hms,
           congrArg CollectionStats.systemprompts hms⟩
  · rw [(migrate_components src emptySqliteDB).1,
        (importedState_counts src emptySqliteDB).2.2.2.1]
    simp [emptySqliteDB]
  · intro q hq ht hp
    rw [(migrate_components src emptySqliteDB).2.2.2]
    apply verifyMigration_mismatch
    intro he
    have hcq := congrArg CollectionStats.questions he
    have hq1 : (mongoStatsOf src).questions = src.questions.length := rfl
    have hq2 : (sqliteStatsOf (importedState src emptySqliteDB).db).questions
        = (importedState src emptySqliteDB).db.questions.length := rfl
    rw [hq1, hq2, (importedState_counts src emptySqliteDB).2.2.2.2] at hcq
    have hlt := length_filter_lt
      (fun q => (mapGet (assignedList (src.passagesets.map MongoPassageSet.mongoId)
          src.textbooks.length ++
        assignedList (src.textbooks.map MongoTextbook.mongoId) 0) q.setId).isSome)
      src.questions q hq
      (by
        have hnone := orphan_not_resolvable src q ht hp
        simp [hnone])
    have hz : emptySqliteDB.questions.length = 0 := rfl
    rw [hz] at hcq
    omega

/-- C2 witness: the orphan-question source makes the run from an empty
target fail verification with the count-mismatch error. -/
theorem migration_count_reconciliation_witness :
    (migrate c2OrphanSrc emptySqliteDB).2 = .error verifyErrorMessage :=
  (migration_count_reconciliation c2OrphanSrc).2.2 (qRec "q1" "missing")
    (by decide) (by decide) (by decide)

/-- C2 counterexample: a successful run against a target that already
holds one SystemPromptVersion row — verification passes, yet the
SystemPromptVersion source count (0) differs from the target count (1),
because `verifyMigration` never compares that kind. -/
theorem c2_promptVersion_not_reconciled :
    (migrate emptyMongoDB c2InitDb).2 = .ok () ∧
    emptyMongoDB.systemprompversions.length
      ≠ (migrate emptyMongoDB c2InitDb).1.db.systemPromptVersions.length :=
  ⟨rfl, by decide⟩

/-- C3 (amended): any per-kind count mismatch after the run makes the
whole migration fail — the error propagates as the run's outcome, with no
partial acceptance — but the raised error is the fixed generic message;
the per-kind counts (both sides) appear only in the advisory comparison
lines printed to the log. -/
theorem verification_mismatch_fatal (src : MongoDB) (init : SqliteDB) :
    (mongoStatsOf src ≠ sqliteStatsOf (migrate src init).1.db →
       (migrate src init).2 = .error verifyErrorMessage) ∧
    verifyLogLines (mongoStatsOf src) (sqliteStatsOf (migrate src init).1.db)
      ⊆ (migrate src init).1.logs := by
  constructor
  · intro h
    rw [(migrate_components src init).2.2.2]
    apply verifyMigration_mismatch
    rw [(migrate_components src init).1] at h
    exact h
  · rw [(migrate_components src init).2.2.1, (migrate_components src init).1]
    exact List.subset_append_right _ _

/-- C3 witness: a run against a target holding a pre-existing textbook row
mismatches and ends in the fixed error. -/
theorem verification_mismatch_fatal_witness :
    (migrate emptyMongoDB c3InitDb).2 = .error verifyErrorMessage :=
  (verification_mismatch_fatal emptyMongoDB c3InitDb).1 (by decide)

/-- C3 counterexample: two different mismatches — textbooks 5 against 3,
and questions 7 against 2 — raise the identical fixed error, and its text
contains no digit, so the raised failure names neither the mismatched
entity kind nor either count. -/
theorem c3_generic_error_counterexample :
    (verifyMigration ⟨5, 0, 0, 0⟩ ⟨3, 0, 0, 0⟩).2 = .error verifyErrorMessage ∧
    (verifyMigration ⟨0, 0, 7, 0⟩ ⟨0, 0, 2, 0⟩).2 = .error verifyErrorMessage ∧
    verifyErrorMessage.toList.all (fun c => !c.isDigit) = true :=
  ⟨rfl, rfl, by decide⟩

/-- C4: a migration run that fails (here: verification rejects an orphan
question) still makes the process exit with status 0, because the entry
point `main().catch(console.error)` swallows the rejection — the claimed
non-zero exit status on a failed run does not hold. -/
theorem migrate_failed_run_exits_zero :
    (migrate c4OrphanSrc emptySqliteDB).2 = .error verifyErrorMessage ∧
    migrateMainExitCode c4OrphanSrc emptySqliteDB = 0 :=
  ⟨rfl, rfl⟩

/-! ### C5 — identifier totality and uniqueness -/

/-- C5 (amended): restricted to the kinds the mapper registers — Textbook
and PassageSet.  After the run, every such source identifier resolves to a
target identifier drawn during their import (so below the number of
identifiers issued for those kinds); a target identifier is never shared
between two distinct source identifiers; and no pass after the passage-set
importing mutates the mapping, so resolution at any later point of the run
returns the same value as right after import — `mapGet` itself is a pure
read of the state.  (Question, SystemPrompt and SystemPromptVersion
records are never registered in the mapper: see the counterexample.) -/
theorem idMapping_totality_uniqueness (src : MongoDB) (init : SqliteDB) :
    (∀ k, k ∈ src.textbooks.map MongoTextbook.mongoId ++
            src.passagesets.map MongoPassageSet.mongoId →
       ∃ v, mapGet (migrate src init).1.idMapping k = some v ∧
            v < src.textbooks.length + src.passagesets.length) ∧
    (∀ k k' v, mapGet (migrate src init).1.idMapping k = some v →
       mapGet (migrate src init).1.idMapping k' = some v → k = k') ∧
    (migrate src init).1.idMapping
      = (migratePassageSets src (migrateTextbooks src (initialState init))).idMapping := by
  have hM : (migrate src init).1.idMapping
      = assignedList (src.passagesets.map MongoPassageSet.mongoId)
          src.textbooks.length ++
        assignedList (src.textbooks.map MongoTextbook.mongoId) 0 :=
    (migrate_components src init).2.1.trans (importedState_idMapping src init)
  refine ⟨?_, ?_, ?_⟩
  · intro k hk
    rw [hM, mapGet_append]
    cases hA : mapGet (assignedList (src.passagesets.map MongoPassageSet.mongoId)
        src.textbooks.length) k with
    | some v =>
        obtain ⟨i, hi, _, hv⟩ := mapGet_assignedList_some _ _ _ _ hA
        rw [List.length_map] at hi
        exact ⟨v, rfl, hv ▸ Nat.add_lt_add_left hi _⟩
    | none =>
        rcases List.mem_append.mp hk with hkt | hkp
        · obtain ⟨v, hv⟩ := mapGet_assignedList_isSome
            (src.textbooks.map MongoTextbook.mongoId) 0 k hkt
          obtain ⟨j, hj, _, hvj⟩ := mapGet_assignedList_some _ _ _ _ hv
          rw [List.length_map] at hj
          refine ⟨v, hv, ?_⟩
          rw [hvj, Nat.zero_add]
          exact Nat.lt_of_lt_of_le hj (Nat.le_add_right _ _)
        · obtain ⟨v, hv⟩ := mapGet_assignedList_isSome
            (src.passagesets.map MongoPassageSet.mongoId) src.textbooks.length k hkp
          rw [hA] at hv
          cases hv
  · intro k k' v hk hk'
    rw [hM] at hk hk'
    have hlen := List.length_map src.textbooks MongoTextbook.mongoId
    rcases mapGet_append_cases _ _ _ _ hk with hA | ⟨_, hB⟩ <;>
      rcases mapGet_append_cases _ _ _ _ hk' with hA' | ⟨_, hB'⟩
    · obtain ⟨i, hi, hgi, hvi⟩ := mapGet_assignedList_some _ _ _ _ hA
      obtain ⟨i', hi', hgi', hvi'⟩ := mapGet_assignedList_some _ _ _ _ hA'
      have : i = i' := by omega
      subst this
      rw [hgi] at hgi'
      exact Option.some.inj hgi'.symm ▸ rfl
    · obtain ⟨i, hi, hgi, hvi⟩ := mapGet_assignedList_some _ _ _ _ hA
      obtain ⟨j', hj', hgj', hvj'⟩ := mapGet_assignedList_some _ _ _ _ hB'
      rw [hlen] at hj'
      omega
    · obtain ⟨j, hj, hgj, hvj⟩ := mapGet_assignedList_some _ _ _ _ hB
      obtain ⟨i', hi', hgi', hvi'⟩ := mapGet_assignedList_some _ _ _ _ hA'
      rw [hlen] at hj
      omega
    · obtain ⟨j, hj, hgj, hvj⟩ := mapGet_assignedList_some _ _ _ _ hB
      obtain ⟨j', hj', hgj', hvj'⟩ := mapGet_assignedList_some _ _ _ _ hB'
      have : j = j' := by omega
      subst this
      rw [hgj] at hgj'
      exact Option.some.inj hgj'.symm ▸ rfl
  · rw [hM]
    rw [(migratePassageSets_shape src (migrateTextbooks src (initialState init))).2.1,
        (migrateTextbooks_shape src (initialState init)).2.1,
        (migrateTextbooks_shape src (initialState init)).2.2.1]
    simp [initialState]

/-- C5 witness: in a run with one textbook and one passage set, the
textbook's source identifier resolves to an issued target identifier. -/
theorem idMapping_totality_uniqueness_witness :
    ∃ v, mapGet (migrate c5WitnessSrc emptySqliteDB).1.idMapping "t1" = some v ∧
         v < c5WitnessSrc.textbooks.length + c5WitnessSrc.passagesets.length :=
  (idMapping_totality_uniqueness c5WitnessSrc emptySqliteDB).1 "t1" (by decide)

/-- C5 counterexample: a question is successfully imported (the target
holds its row and the run succeeds), yet resolving the question's own
source identifier through the mapper returns nothing — the claim fails for
the Question kind, whose records are never registered in `idMapping`. -/
theorem c5_question_resolve_counterexample :
    (migrate c5Src emptySqliteDB).2 = .ok () ∧
    (migrate c5Src emptySqliteDB).1.db.questions.length = 1 ∧
    mapGet (migrate c5Src emptySqliteDB).1.idMapping "q1" = none :=
  ⟨rfl, rfl, rfl⟩

/-! ### C6 — assigning twice -/

/-- C6 (amended): a second `idMapping.set` for an already-assigned source
identifier is not an error — the import step always completes — and it
silently issues a fresh target identifier and overwrites the existing
binding: afterwards the identifier resolves to the newly issued value, and
a second target row is inserted. -/
theorem assign_twice_overwrites (s : MigratorState) (t : MongoTextbook)
    (v : TargetId) (h : mapGet s.idMapping t.mongoId = some v) :
    mapGet (migrateTextbook1 s t).idMapping t.mongoId = some s.nextId ∧
    (migrateTextbook1 s t).db.textbooks.length = s.db.textbooks.length + 1 := by
  constructor
  · show mapGet ((t.mongoId, s.nextId) :: s.idMapping) t.mongoId = some s.nextId
    simp [mapGet]
  · simp [migrateTextbook1]

/-- C6 witness: importing the same source identifier "a" twice — the
second step succeeds, resolves "a" to the second issued identifier 1, and
the store holds two rows. -/
theorem assign_twice_overwrites_witness :
    mapGet (migrateTextbook1 (migrateTextbook1 (initialState emptySqliteDB)
        (tbRec "a")) (tbRec "a")).idMapping "a" = some 1 ∧
    (migrateTextbook1 (migrateTextbook1 (initialState emptySqliteDB)
        (tbRec "a")) (tbRec "a")).db.textbooks.length = 2 :=
  assign_twice_overwrites
    (migrateTextbook1 (initialState emptySqliteDB) (tbRec "a")) (tbRec "a") 0 rfl

/-- C6 counterexample: a source whose textbook collection carries the same
identifier twice migrates to completion with no error — the second
assignment neither fails nor is rejected; it overwrites the mapping with
the second issued identifier and a second row is created. -/
theorem c6_duplicate_assign_not_error :
    (migrate c6Src emptySqliteDB).2 = .ok () ∧
    mapGet (migrate c6Src emptySqliteDB).1.idMapping "a" = some 1 ∧
    (migrate c6Src emptySqliteDB).1.db.textbooks.length = 2 :=
  ⟨rfl, rfl, rfl⟩

/-! ### C7 — idempotent relationship linking -/

/-- One link step only ever appends to the junction table. -/
theorem linkTextbook1_mono (psId : TargetId) (s : MigratorState) (tbm : String) :
    s.db.passageSetTextbooks ⊆ (linkTextbook1 psId s tbm).db.passageSetTextbooks := by
  unfold linkTextbook1 junctionInsert
  cases mapGet s.idMapping tbm with
  | none => exact fun a ha => ha
  | some tid =>
      by_cases hj : (⟨tid, psId⟩ : PassageSetTextbook) ∈ s.db.passageSetTextbooks
      · simp only [if_pos hj]
        exact fun a ha => ha
      · simp only [if_neg hj]
        exact List.subset_append_left _ _

/-- One link step keeps the junction table duplicate-free: the insert is
guarded by the store's uniqueness check, whose failure is caught and
skipped. -/
theorem linkTextbook1_nodup (psId : TargetId) (s : MigratorState) (tbm : String)
    (h : s.db.passageSetTextbooks.Nodup) :
    (linkTextbook1 psId s tbm).db.passageSetTextbooks.Nodup := by
  unfold linkTextbook1 junctionInsert
  cases mapGet s.idMapping tbm with
  | none => exact h
  | some tid =>
      by_cases hj : (⟨tid, psId⟩ : PassageSetTextbook) ∈ s.db.passageSetTextbooks
      · simp only [if_pos hj]
        exact h
      · simp only [if_neg hj]
        rw [List.nodup_append]
        refine ⟨h, List.nodup_singleton _, fun a ha hmem => ?_⟩
        rw [List.mem_singleton] at hmem
        exact hj (hmem ▸ ha)

/-- After a link step for a resolvable textbook reference, the pair is in
the junction table. -/
theorem linkTextbook1_mem (psId : TargetId) (s : MigratorState) (tbm : String)
    (tbId : TargetId) (h : mapGet s.idMapping tbm = some tbId) :
    (⟨tbId, psId⟩ : PassageSetTextbook)
      ∈ (linkTextbook1 psId s tbm).db.passageSetTextbooks := by
  unfold linkTextbook1 junctionInsert
  rw [h]
  by_cases hj : (⟨tbId, psId⟩ : PassageSetTextbook) ∈ s.db.passageSetTextbooks
  · simp only [if_pos hj]
    exact hj
  · simp only [if_neg hj]
    exact List.mem_append_right _ (List.mem_singleton_self _)

/-- The inner relationship fold only ever appends to the junction table. -/
theorem foldLink_mono (psId : TargetId) :
    ∀ (l : List String) (s : MigratorState),
      s.db.passageSetTextbooks
        ⊆ (l.foldl (linkTextbook1 psId) s).db.passageSetTextbooks := by
  intro l
  induction l with
  | nil => intro s a ha; exact ha
  | cons x xs ih =>
      intro s
      exact fun a ha => ih (linkTextbook1 psId s x) (linkTextbook1_mono psId s x ha)

/-- The inner relationship fold keeps the junction table duplicate-free. -/
theorem foldLink_nodup (psId : TargetId) :
    ∀ (l : List String) (s : MigratorState),
      s.db.passageSetTextbooks.Nodup →
      (l.foldl (linkTextbook1 psId) s).db.passageSetTextbooks.Nodup := by
  intro l
  induction l with
  | nil => intro s h; exact h
  | cons x xs ih =>
      intro s h
      exact ih (linkTextbook1 psId s x) (linkTextbook1_nodup psId s x h)

/-- After the inner relationship fold, every resolvable reference it
visited is present in the junction table. -/
theorem foldLink_mem (psId : TargetId) :
    ∀ (l : List String) (s : MigratorState) (tbm : String) (tbId : TargetId),
      tbm ∈ l → mapGet s.idMapping tbm = some tbId →
      (⟨tbId, psId⟩ : PassageSetTextbook)
        ∈ (l.foldl (linkTextbook1 psId) s).db.passageSetTextbooks := by
  intro l
  induction l with
  | nil => intro s tbm tbId h; cases h
  | cons x xs ih =>
      intro s tbm tbId hmem hres
      rcases List.mem_cons.mp hmem with rfl | hx
      · exact foldLink_mono psId xs (linkTextbook1 psId s tbm)
          (linkTextbook1_mem psId s tbm tbId hres)
      · have hres' : mapGet (linkTextbook1 psId s x).idMapping tbm = some tbId := by
          rw [(linkTextbook1_frame psId s x).2.2.2.2.2]
          exact hres
        exact ih (linkTextbook1 psId s x) tbm tbId hx hres'

/-- One passage set's relationship pass only appends to the junction
table. -/
theorem establishRelationships1_mono (s : MigratorState) (p : MongoPassageSet) :
    s.db.passageSetTextbooks ⊆ (establishRelationships1 s p).db.passageSetTextbooks := by
  unfold establishRelationships1
  cases mapGet s.idMapping p.mongoId with
  | none => exact fun a ha => ha
  | some psId => exact foldLink_mono psId p.textbooks s

/-- One passage set's relationship pass keeps the junction table
duplicate-free. -/
theorem establishRelationships1_nodup (s : MigratorState) (p : MongoPassageSet)
    (h : s.db.passageSetTextbooks.Nodup) :
    (establishRelationships1 s p).db.passageSetTextbooks.Nodup := by
  unfold establishRelationships1
  cases mapGet s.idMapping p.mongoId with
  | none => exact h
  | some psId => exact foldLink_nodup psId p.textbooks s h

/-- The outer relationship fold only appends to the junction table. -/
theorem foldRel_mono :
    ∀ (l : List MongoPassageSet) (s : MigratorState),
      s.db.passageSetTextbooks
        ⊆ (l.foldl establishRelationships1 s).db.passageSetTextbooks := by
  intro l
  induction l with
  | nil => intro s a ha; exact ha
  | cons p ps ih =>
      intro s
      exact fun a ha => ih (establishRelationships1 s p)
        (establishRelationships1_mono s p ha)

/-- After the whole relationship pass, every resolvable pair of a visited
passage set is present in the junction table. -/
theorem foldRel_mem :
    ∀ (l : List MongoPassageSet) (s : MigratorState) (p : MongoPassageSet)
      (psId : TargetId) (tbm : String) (tbId : TargetId),
      p ∈ l → mapGet s.idMapping p.mongoId = some psId →
      tbm ∈ p.textbooks → mapGet s.idMapping tbm = some tbId →
      (⟨tbId, psId⟩ : PassageSetTextbook)
        ∈ (l.foldl establishRelationships1 s).db.passageSetTextbooks := by
  intro l
  induction l with
  | nil => intro s p psId tbm tbId h; cases h
  | cons a rest ih =>
      intro s p psId tbm tbId hp hps htb hres
      rcases List.mem_cons.mp hp with rfl | hrest
      · refine foldRel_mono rest (establishRelationships1 s p) ?_
        unfold establishRelationships1
        rw [hps]
        exact foldLink_mem psId p.textbooks s tbm tbId htb hres
      · have hf := (establishRelationships1_frame s a).2.2.2.2.2
        exact ih (establishRelationships1 s a) p psId tbm tbId hrest
          (by rw [hf]; exact hps) htb (by rw [hf]; exact hres)

/-- C7: during `establishRelationships` the duplicate-insert error from
the junction table's composite uniqueness is caught and skipped, so the
pass never raises an error (in this embedding it is a total function on
the migrator state), and any Textbook–PassageSet pair that is linked —
once, twice, or more — ends up as exactly one junction record: the
junction table stays duplicate-free and the pair is present. -/
theorem relationship_linking_idempotent (src : MongoDB) (s : MigratorState)
    (hnd : s.db.passageSetTextbooks.Nodup) :
    (establishRelationships src s).db.passageSetTextbooks.Nodup ∧
    (∀ p psId tbm tbId, p ∈ src.passagesets →
       mapGet s.idMapping p.mongoId = some psId →
       tbm ∈ p.textbooks → mapGet s.idMapping tbm = some tbId →
       ((establishRelationships src s).db.passageSetTextbooks.count
          ⟨tbId, psId⟩) = 1) := by
  have hnodup : (establishRelationships src s).db.passageSetTextbooks.Nodup := by
    unfold establishRelationships
    induction src.passagesets generalizing s with
    | nil => exact hnd
    | cons p rest ih =>
        rw [List.foldl_cons]
        exact ih (establishRelationships1 s p) (establishRelationships1_nodup s p hnd)
  refine ⟨hnodup, fun p psId tbm tbId hp hps htb hres => ?_⟩
  have hmem : (⟨tbId, psId⟩ : PassageSetTextbook)
      ∈ (establishRelationships src s).db.passageSetTextbooks :=
    foldRel_mem src.passagesets s p psId tbm tbId hp hps htb hres
  have hle := List.nodup_iff_count_le_one.mp hnodup (⟨tbId, psId⟩ : PassageSetTextbook)
  have hpos := List.count_pos_iff_mem.mpr hmem
  omega

/-- C7 witness: a passage set referencing the same textbook twice — the
pass completes, the duplicate insert is caught (the skip line is logged),
and the pair appears exactly once. -/
theorem relationship_linking_idempotent_witness :
    (establishRelationships c7Src c7State).db.passageSetTextbooks.Nodup ∧
    ((establishRelationships c7Src c7State).db.passageSetTextbooks.count ⟨0, 1⟩) = 1 ∧
    "중복 관계 스킵" ∈ (establishRelationships c7Src c7State).logs := by
  have h := relationship_linking_idempotent c7Src c7State (by decide)
  exact ⟨h.1,
    h.2 (psRec "p1" ["t1", "t1"]) 1 "t1" 0 (by decide) (by decide) (by decide) (by decide),
    by decide⟩

/-! ### Backup and restore -/

/-- Removing a file makes its name unresolvable in the directory. -/
theorem mapGet_fsRemove {α : Type} (m : List (String × α)) (k : String) :
    mapGet (fsRemove m k) k = none := by
  induction m with
  | nil => rfl
  | cons p rest ih =>
      obtain ⟨k', v⟩ := p
      by_cases h : k' = k <;> simp [fsRemove, List.filter_cons, h, mapGet, ih] <;>
        simpa [fsRemove] using ih

/-- The three outcomes of `restore_database`: missing backup; intact
backup installed; corrupt backup rolled back.  In each case the whole
resulting state is given. -/
theorem restore_database_cases (st : BackupSystemState) (name ts : String) :
    (mapGet st.dbBackups name = none → restore_database st name ts = (st, 1)) ∧
    (∀ b, mapGet st.dbBackups name = some b → b.intact = true →
       restore_database st name ts =
         ({ st with liveDb := b,
                    preRestoreDb := (ts, st.liveDb) :: st.preRestoreDb }, 0)) ∧
    (∀ b, mapGet st.dbBackups name = some b → b.intact = false →
       restore_database st name ts =
         ({ st with preRestoreDb := (ts, st.liveDb) :: st.preRestoreDb }, 1)) := by
  refine ⟨fun h => ?_, fun b hb hi => ?_, fun b hb hi => ?_⟩
  · unfold restore_database
    rw [h]
  · unfold restore_database
    rw [hb]
    simp [integrity_check, hi]
  · unfold restore_database
    rw [hb]
    simp [integrity_check, hi, mapGet]

/-- C1: whenever `restore_database` finds the named backup, it first files
a timestamped safety copy holding the pre-restore live store; and if the
consistency check on the restored store fails, the safety copy is copied
back — the live store ends equal to its pre-restore contents — and the
operation returns non-zero. -/
theorem restore_database_rollback (st : BackupSystemState) (name ts : String)
    (b : SqliteFile) (hb : mapGet st.dbBackups name = some b) :
    mapGet (restore_database st name ts).1.preRestoreDb ts = some st.liveDb ∧
    (b.intact = false →
       (restore_database st name ts).1.liveDb = st.liveDb ∧
       (restore_database st name ts).2 = 1) := by
  cases hi : b.intact
  · rw [(restore_database_cases st name ts).2.2 b hb hi]
    exact ⟨by simp [mapGet], fun _ => ⟨rfl, rfl⟩⟩
  · rw [(restore_database_cases st name ts).2.1 b hb hi]
    exact ⟨by simp [mapGet], fun hfalse => by cases hfalse⟩

/-- C1 witness: restoring the corrupt backup "b1" files the safety copy,
rolls the live store back, and returns 1. -/
theorem restore_database_rollback_witness :
    mapGet (restore_database c1State "b1" "ts1").1.preRestoreDb "ts1"
      = some c1State.liveDb ∧
    (restore_database c1State "b1" "ts1").1.liveDb = c1State.liveDb ∧
    (restore_database c1State "b1" "ts1").2 = 1 := by
  have h := restore_database_rollback c1State "b1" "ts1"
    ⟨"corrupt-content", false⟩ rfl
  exact ⟨h.1, (h.2 rfl).1, (h.2 rfl).2⟩

/-- C8: `backup_database` checks the point-in-time copy it just produced;
when the check fails the copy is deleted — the backup name resolves to
nothing afterwards — and the operation exits 1; when the check passes the
copy is retained under the backup name and the operation exits 0. -/
theorem backup_database_integrity (st : BackupSystemState) (name : String) :
    (st.liveDb.intact = true →
       (backup_database st name).2 = 0 ∧
       mapGet (backup_database st name).1.dbBackups name = some st.liveDb) ∧
    (st.liveDb.intact = false →
       (backup_database st name).2 = 1 ∧
       mapGet (backup_database st name).1.dbBackups name = none) := by
  refine ⟨fun hi => ?_, fun hi => ?_⟩
  · unfold backup_database
    simp [integrity_check, hi, mapGet]
  · unfold backup_database
    simp [integrity_check, hi, mapGet_fsRemove]

/-- C8 witness: backing up a store that fails its consistency check exits
1 and retains nothing under the backup name. -/
theorem backup_database_integrity_witness :
    (backup_database c8State "b1").2 = 1 ∧
    mapGet (backup_database c8State "b1").1.dbBackups "b1" = none :=
  (backup_database_integrity c8State "b1").2 rfl

/-- C10: in a full-scope restore the database restore runs first, and when
it fails — the named backup is missing, or its consistency check fails and
the rollback runs — `set -e` terminates the command with that failure
before `restore_files` is invoked: the result is exactly the database
restore's, the live file-asset directory and the file backups are
untouched, and the live store equals its pre-restore contents. -/
theorem restoreFull_db_failure_frame (st : BackupSystemState)
    (name tsDb tsFiles : String)
    (h : mapGet st.dbBackups name = none ∨
         ∃ b, mapGet st.dbBackups name = some b ∧ b.intact = false) :
    (restore_database st name tsDb).2 = 1 ∧
    restoreFull st name tsDb tsFiles = restore_database st name tsDb ∧
    (restoreFull st name tsDb tsFiles).1.filesDir = st.filesDir ∧
    (restoreFull st name tsDb tsFiles).1.preRestoreFiles = st.preRestoreFiles ∧
    (restoreFull st name tsDb tsFiles).1.fileBackups = st.fileBackups ∧
    (restoreFull st name tsDb tsFiles).1.liveDb = st.liveDb ∧
    (restoreFull st name tsDb tsFiles).2 = 1 := by
  have hr : restore_database st name tsDb
      = ((restore_database st name tsDb).1, 1) ∧
      (restore_database st name tsDb).1.filesDir = st.filesDir ∧
      (restore_database st name tsDb).1.preRestoreFiles = st.preRestoreFiles ∧
      (restore_database st name tsDb).1.fileBackups = st.fileBackups ∧
      (restore_database st name tsDb).1.liveDb = st.liveDb := by
    rcases h with h | ⟨b, hb, hi⟩
    · rw [(restore_database_cases st name tsDb).1 h]
      exact ⟨rfl, rfl, rfl, rfl, rfl⟩
    · rw [(restore_database_cases st name tsDb).2.2 b hb hi]
      exact ⟨rfl, rfl, rfl, rfl, rfl⟩
  have hc : (restore_database st name tsDb).2 = 1 := congrArg Prod.snd hr.1
  have hfull : restoreFull st name tsDb tsFiles = restore_database st name tsDb := by
    unfold restoreFull
    rw [if_pos (by rw [hc]; exact one_ne_zero)]
  refine ⟨hc, hfull, ?_, ?_, ?_, ?_, ?_⟩ <;> rw [hfull]
  · exact hr.2.1
  · exact hr.2.2.1
  · exact hr.2.2.2.1
  · exact hr.2.2.2.2
  · exact hc

/-- C10 witness: with backup "b1" corrupt, the full restore fails in the
database step and the live file-asset directory is untouched. -/
theorem restoreFull_db_failure_frame_witness :
    (restoreFull c10State "b1" "t1" "t2").1.filesDir = some "current-files" ∧
    (restoreFull c10State "b1" "t1" "t2").2 = 1 := by
  have h := restoreFull_db_failure_frame c10State "b1" "t1" "t2"
    (Or.inr ⟨⟨"corrupt-content", false⟩, rfl, rfl⟩)
  exact ⟨h.2.2.1, h.2.2.2.2.2.2⟩

/-! ### C9 — retention and dry-run -/

/-- What one category's cleanup does when not in dry-run: the survivors
are, up to order, the `MAX_LOCAL_BACKUPS` newest entries; their number is
capped at the limit; and every deleted entry is at least as old as every
survivor. -/
theorem cleanupDir_spec (dir : List (String × Nat))
    (hnd : (dir.map Prod.fst).Nodup) :
    List.Perm (cleanupDir false dir) ((lsT dir).take MAX_LOCAL_BACKUPS) ∧
    (cleanupDir false dir).length = min MAX_LOCAL_BACKUPS dir.length ∧
    (∀ x ∈ (lsT dir).take MAX_LOCAL_BACKUPS, ∀ y ∈ oldLocalBackups dir,
       y.2 ≤ x.2) := by
  have hperm : List.Perm (lsT dir) dir := List.perm_insertionSort newerEq dir
  have hsplit : (lsT dir).take MAX_LOCAL_BACKUPS ++ (lsT dir).drop MAX_LOCAL_BACKUPS
      = lsT dir := List.take_append_drop _ _
  have hnds2 : ((lsT dir).map Prod.fst).Nodup :=
    (List.Perm.nodup_iff (hperm.map Prod.fst)).mpr hnd
  have hsorted : List.Pairwise newerEq
      ((lsT dir).take MAX_LOCAL_BACKUPS ++ (lsT dir).drop MAX_LOCAL_BACKUPS) := by
    rw [hsplit]
    exact List.sorted_insertionSort newerEq dir
  have hfrontier := (List.pairwise_append.mp hsorted).2.2
  have hkeep : ∀ x ∈ (lsT dir).take MAX_LOCAL_BACKUPS,
      x.1 ∉ (oldLocalBackups dir).map Prod.fst := by
    intro x hx hmem
    have hsplitmap : (lsT dir).map Prod.fst
        = ((lsT dir).take MAX_LOCAL_BACKUPS).map Prod.fst ++
          ((lsT dir).drop MAX_LOCAL_BACKUPS).map Prod.fst := by
      rw [← List.map_append, hsplit]
    rw [hsplitmap] at hnds2
    exact (List.nodup_append.mp hnds2).2.2 (List.mem_map_of_mem Prod.fst hx) hmem
  have hfe : cleanupDir false dir
      = dir.filter (fun e => decide (e.1 ∉ (oldLocalBackups dir).map Prod.fst)) := rfl
  have h1 : List.Perm (cleanupDir false dir)
      ((lsT dir).filter (fun e => decide (e.1 ∉ (oldLocalBackups dir).map Prod.fst))) := by
    rw [hfe]
    exact (hperm.filter _).symm
  have h2 : (lsT dir).filter (fun e => decide (e.1 ∉ (oldLocalBackups dir).map Prod.fst))
      = ((lsT dir).take MAX_LOCAL_BACKUPS).filter
          (fun e => decide (e.1 ∉ (oldLocalBackups dir).map Prod.fst)) ++
        ((lsT dir).drop MAX_LOCAL_BACKUPS).filter
          (fun e => decide (e.1 ∉ (oldLocalBackups dir).map Prod.fst)) := by
    rw [← List.filter_append, hsplit]
  have h3 : ((lsT dir).drop MAX_LOCAL_BACKUPS).filter
      (fun e => decide (e.1 ∉ (oldLocalBackups dir).map Prod.fst)) = [] := by
    apply List.filter_eq_nil_iff.mpr
    intro y hy
    simp only [decide_eq_true_eq, not_not]
    exact List.mem_map_of_mem Prod.fst hy
  have h4 : ((lsT dir).take MAX_LOCAL_BACKUPS).filter
      (fun e => decide (e.1 ∉ (oldLocalBackups dir).map Prod.fst))
      = (lsT dir).take MAX_LOCAL_BACKUPS := by
    apply List.filter_eq_self.mpr
    intro x hx
    simp only [decide_eq_true_eq]
    exact hkeep x hx
  have hp : List.Perm (cleanupDir false dir) ((lsT dir).take MAX_LOCAL_BACKUPS) := by
    rw [h2, h3, h4, List.append_nil] at h1
    exact h1
  refine ⟨hp, ?_, fun x hx y hy => hfrontier x hx y hy⟩
  rw [hp.length_eq, List.length_take, hperm.length_eq]

/-- C9: cleanup keeps, in each local category (database, files, full), at
most `MAX_LOCAL_BACKUPS` backups — up to order exactly the newest ones by
modification time, so with N+5 present the 5 oldest and only they are
deleted — and every deleted backup is at least as old as every kept one;
with dry-run set, the state (local categories and the cloud listing) is
returned unchanged. -/
theorem cleanup_retention (st : BackupDirs)
    (h1 : (st.database.map Prod.fst).Nodup)
    (h2 : (st.files.map Prod.fst).Nodup)
    (h3 : (st.full.map Prod.fst).Nodup) :
    (cleanup_backups true st).1 = st ∧
    (List.Perm (cleanup_backups false st).1.database
        ((lsT st.database).take MAX_LOCAL_BACKUPS) ∧
      (cleanup_backups false st).1.database.length
        = min MAX_LOCAL_BACKUPS st.database.length ∧
      ∀ x ∈ (lsT st.database).take MAX_LOCAL_BACKUPS,
        ∀ y ∈ oldLocalBackups st.database, y.2 ≤ x.2) ∧
    (List.Perm (cleanup_backups false st).1.files
        ((lsT st.files).take MAX_LOCAL_BACKUPS) ∧
      (cleanup_backups false st).1.files.length
        = min MAX_LOCAL_BACKUPS st.files.length ∧
      ∀ x ∈ (lsT st.files).take MAX_LOCAL_BACKUPS,
        ∀ y ∈ oldLocalBackups st.files, y.2 ≤ x.2) ∧
    (List.Perm (cleanup_backups false st).1.full
        ((lsT st.full).take MAX_LOCAL_BACKUPS) ∧
      (cleanup_backups false st).1.full.length
        = min MAX_LOCAL_BACKUPS st.full.length ∧
      ∀ x ∈ (lsT st.full).take MAX_LOCAL_BACKUPS,
        ∀ y ∈ oldLocalBackups st.full, y.2 ≤ x.2) := by
  refine ⟨?_, cleanupDir_spec st.database h1, cleanupDir_spec st.files h2,
    cleanupDir_spec st.full h3⟩
  obtain ⟨d, f, fu, cc, cl⟩ := st
  cases cc <;> rfl

/-- C9 witness: with 35 backups in the database category, cleanup keeps
exactly 30, and a dry run changes nothing. -/
theorem cleanup_retention_witness :
    (cleanup_backups false c9Dirs).1.database.length = 30 ∧
    (cleanup_backups true c9Dirs).1 = c9Dirs := by
  have h := cleanup_retention c9Dirs (by decide) (by decide) (by decide)
  refine ⟨?_, h.1⟩
  rw [h.2.1.2.1]
  decide
